import Mathlib

/-!
Verification development for the Pixel Streaming frontend session controller
(`Frontend/library/src/PixelStreaming/PixelStreaming.ts`).

Pure functions of the source are embedded as Lean functions; stateful handlers
become explicit state-passing functions; the collaborators that live outside
the provided sources (`WebRtcPlayerController`, `Config` change notification,
`AggregatedStats`) are modelled from the specification where a claim needs
them, and each such definition is marked `Modelled from the spec:` in its doc
comment.
-/

namespace PixelStreamingSpec

/-- The numeric configuration parameters of `Config` that
`PixelStreaming._onInitialSettings` and the settings listeners touch
(`NumericParameters` in Config.ts). -/
inductive NumericParameters where
  | MinQP
  | MaxQP
  | WebRTCMinBitrate
  | WebRTCMaxBitrate
  | WebRTCFPS
deriving DecidableEq, Repr

/-- The numeric settings store of the `Config` object, restricted to the
parameters used by `PixelStreaming`. -/
structure NumericConfig where
  minQP : Int
  maxQP : Int
  webRTCMinBitrate : Int
  webRTCMaxBitrate : Int
  webRTCFPS : Int
deriving DecidableEq, Repr

/-- `Config.setNumericSetting(id, value)`: stores `value` in the numeric
setting identified by `id`. -/
def setNumericSetting (cfg : NumericConfig) (p : NumericParameters) (v : Int) :
    NumericConfig :=
  match p with
  | .MinQP => { cfg with minQP := v }
  | .MaxQP => { cfg with maxQP := v }
  | .WebRTCMinBitrate => { cfg with webRTCMinBitrate := v }
  | .WebRTCMaxBitrate => { cfg with webRTCMaxBitrate := v }
  | .WebRTCFPS => { cfg with webRTCFPS := v }

/-- `Config.getNumericSettingValue(id)`. -/
def getNumericSettingValue (cfg : NumericConfig) (p : NumericParameters) : Int :=
  match p with
  | .MinQP => cfg.minQP
  | .MaxQP => cfg.maxQP
  | .WebRTCMinBitrate => cfg.webRTCMinBitrate
  | .WebRTCMaxBitrate => cfg.webRTCMaxBitrate
  | .WebRTCFPS => cfg.webRTCFPS

/-- `EncoderSettings` of `DataChannel/InitialSettings.ts` (the fields used by
`_onInitialSettings`). -/
structure EncoderSettings where
  MinQP : Int
  MaxQP : Int
deriving DecidableEq, Repr

/-- `WebRTCSettings` of `DataChannel/InitialSettings.ts` (the fields used by
`_onInitialSettings`). -/
structure WebRTCSettings where
  MinBitrate : Int
  MaxBitrate : Int
  FPS : Int
deriving DecidableEq, Repr

/-- `PixelStreamingSettings` of `DataChannel/InitialSettings.ts`:
the console-command permission flag carried by an initial-settings message. -/
structure PixelStreamingSettings where
  AllowPixelStreamingCommands : Bool
deriving DecidableEq, Repr

/-- `InitialSettings` of `DataChannel/InitialSettings.ts`: each section is
optional, matching the `if (settings.X)` guards in `_onInitialSettings`. -/
structure InitialSettings where
  pixelStreamingSettings : Option PixelStreamingSettings
  encoderSettings : Option EncoderSettings
  webRTCSettings : Option WebRTCSettings
deriving DecidableEq, Repr

/-- Embedding of the numeric-config updates performed by
`PixelStreaming._onInitialSettings` (PixelStreaming.ts lines 507-545), in
source order.  Note the source stores `settings.WebRTCSettings.MaxBitrate`
into `NumericParameters.WebRTCMinBitrate` (lines 536-539); the embedding
reproduces that literally. -/
def onInitialSettings (cfg : NumericConfig) (settings : InitialSettings) :
    NumericConfig :=
  let cfg1 :=
    match settings.encoderSettings with
    | none => cfg
    | some es =>
        setNumericSetting (setNumericSetting cfg .MinQP es.MinQP) .MaxQP es.MaxQP
  match settings.webRTCSettings with
  | none => cfg1
  | some ws =>
      setNumericSetting
        (setNumericSetting
          (setNumericSetting cfg1 .WebRTCMinBitrate ws.MinBitrate)
          .WebRTCMinBitrate ws.MaxBitrate)
        .WebRTCFPS ws.FPS

/-- A concrete initial-settings message carrying WebRTC settings
`MinBitrate = 1000`, `MaxBitrate = 2000`, `FPS = 30`. -/
def bitrateSettingsInput : InitialSettings :=
  { pixelStreamingSettings := none
    encoderSettings := none
    webRTCSettings := some { MinBitrate := 1000, MaxBitrate := 2000, FPS := 30 } }

/-- The all-zero starting configuration. -/
def zeroConfig : NumericConfig :=
  { minQP := 0, maxQP := 0, webRTCMinBitrate := 0, webRTCMaxBitrate := 0,
    webRTCFPS := 0 }

/-- C1: evaluating `_onInitialSettings` at a WebRTC settings message with
`MinBitrate = 1000`, `MaxBitrate = 2000`, `FPS = 30` shows the code writes the
message's MaxBitrate value into the `WebRTCMinBitrate` setting (overwriting the
just-stored MinBitrate) and never writes the `WebRTCMaxBitrate` setting, while
the claim requires `WebRTCMinBitrate = 1000`, `WebRTCMaxBitrate = 2000` and no
cross-write.  FPS is stored as claimed. -/
theorem C1_onInitialSettings_crossWrites_maxBitrate_into_minBitrate :
    (onInitialSettings zeroConfig bitrateSettingsInput).webRTCMinBitrate = 2000 ∧
    (onInitialSettings zeroConfig bitrateSettingsInput).webRTCMaxBitrate = 0 ∧
    (onInitialSettings zeroConfig bitrateSettingsInput).webRTCFPS = 30 := by
  decide

/-! ### `_onVideoStats` and the video start time (C8) -/

/-- The `PixelStreaming` fields read by `_onVideoStats`:
`_videoStartTime` is `undefined` (here `none`) until `_onVideoInitialized`
assigns it, and `_inputController` is the input-ownership flag. -/
structure VideoState where
  videoStartTime : Option Nat
  inputController : Bool
deriving DecidableEq, Repr

/-- JavaScript truth test `!this._videoStartTime`: true when the field is
`undefined` (`none`) and also when it holds the falsy number `0`. -/
def videoStartTimeFalsy : Option Nat → Bool
  | none => true
  | some t => t == 0

/-- Embedding of `PixelStreaming._onVideoInitialized` (lines 458-461): records
the current clock time as the video start time. -/
def onVideoInitialized (st : VideoState) (now : Nat) : VideoState :=
  { st with videoStartTime := some now }

/-- Embedding of `PixelStreaming._onVideoStats` (lines 477-491): when the start
time is unset it is first initialised to the current clock time, then session
statistics are computed from it.  The returned number is the session duration.
Modelled from the spec: `AggregatedStats.handleSessionStatistics` is outside
the provided sources; per the specification it computes the session duration as
`now - videoStartTime`. -/
def onVideoStats (st : VideoState) (now : Nat) : VideoState × Nat :=
  let start := if videoStartTimeFalsy st.videoStartTime then now
               else st.videoStartTime.getD now
  ({ st with videoStartTime := some start }, now - start)

/-- C8: if `_onVideoStats` runs while the video start time is still unset, the
start time is initialised to the current clock time before statistics are
computed, so the session duration is computed from a set start time (the
post-state start time is always defined) and the first snapshot's duration is
zero. -/
theorem C8_onVideoStats_initialises_start_time (st : VideoState) (now : Nat)
    (h : st.videoStartTime = none) :
    (onVideoStats st now).1.videoStartTime = some now ∧
    (onVideoStats st now).2 = 0 ∧
    ∀ s : VideoState, ∀ t : Nat, (onVideoStats s t).1.videoStartTime ≠ none := by
  refine ⟨?_, ?_, ?_⟩
  · simp [onVideoStats, h, videoStartTimeFalsy]
  · simp [onVideoStats, h, videoStartTimeFalsy]
  · intro s t
    simp [onVideoStats]

/-- Witness for C8 at the concrete state with unset start time and clock 42. -/
theorem C8_onVideoStats_initialises_start_time_witness :
    (onVideoStats { videoStartTime := none, inputController := false } 42).1.videoStartTime
        = some 42 ∧
    (onVideoStats { videoStartTime := none, inputController := false } 42).2 = 0 ∧
    ∀ s : VideoState, ∀ t : Nat, (onVideoStats s t).1.videoStartTime ≠ none :=
  C8_onVideoStats_initialises_start_time
    { videoStartTime := none, inputController := false } 42 rfl

/-! ### `_onDisconnect` (C9) -/

/-- The state read and written by `PixelStreaming._onDisconnect`:
the disconnect-message override held by the controller
(`none` models `undefined`/`null`, matching the triple guard in the source)
and the `_showActionOrErrorOnDisconnect` flag. -/
structure DisconnectState where
  disconnectMessageOverride : Option String
  showActionOrErrorOnDisconnect : Bool
deriving DecidableEq, Repr

/-- The payload of the `WebRtcDisconnectedEvent` dispatched by
`_onDisconnect`. -/
structure DisconnectedEvent where
  eventString : String
  showActionOrErrorOnDisconnect : Bool
deriving DecidableEq, Repr

/-- The guard of `_onDisconnect` (lines 412-417): the override is a non-empty
string, not `undefined` and not `null`. -/
def overrideIsSet : Option String → Bool
  | none => false
  | some s => !(s == "")

/-- Embedding of `PixelStreaming._onDisconnect` (lines 410-432): substitutes a
non-empty override for the given event string and clears it to the empty
string, dispatches the disconnected event with the flag's entry value, then
resets the flag to true when it was false. -/
def onDisconnect (st : DisconnectState) (eventString : String) :
    DisconnectState × DisconnectedEvent :=
  let p :=
    if overrideIsSet st.disconnectMessageOverride then
      (st.disconnectMessageOverride.getD "", some "")
    else (eventString, st.disconnectMessageOverride)
  let ev : DisconnectedEvent :=
    { eventString := p.1
      showActionOrErrorOnDisconnect := st.showActionOrErrorOnDisconnect }
  let flag :=
    if st.showActionOrErrorOnDisconnect = false then true
    else st.showActionOrErrorOnDisconnect
  ({ disconnectMessageOverride := p.2, showActionOrErrorOnDisconnect := flag }, ev)

/-- C9 counterexample: calling `_onDisconnect` while the override is unset
(`undefined`) leaves it unset, not equal to the empty string, so the claim
"after any call the disconnect-message override is the empty string" fails at
this input. -/
theorem C9_onDisconnect_unset_override_not_cleared_to_empty :
    (onDisconnect
        { disconnectMessageOverride := none, showActionOrErrorOnDisconnect := true }
        "connection lost").1.disconnectMessageOverride ≠ some "" := by
  decide

/-- C9 (amended): after any call to `_onDisconnect(eventString)` the override
carries no message (it is cleared to the empty string when it was a non-empty
string at entry, and otherwise keeps its entry value, empty or unset) and the
flag is true; the dispatched event carries the override string when a non-empty
override was set at entry (otherwise the given event string) together with the
flag's entry value. -/
theorem C9_onDisconnect_post_state (st : DisconnectState) (eventString : String) :
    overrideIsSet (onDisconnect st eventString).1.disconnectMessageOverride = false ∧
    (onDisconnect st eventString).1.showActionOrErrorOnDisconnect = true ∧
    (overrideIsSet st.disconnectMessageOverride = true →
      (onDisconnect st eventString).1.disconnectMessageOverride = some "" ∧
      (onDisconnect st eventString).2.eventString
        = st.disconnectMessageOverride.getD "") ∧
    (overrideIsSet st.disconnectMessageOverride = false →
      (onDisconnect st eventString).1.disconnectMessageOverride
          = st.disconnectMessageOverride ∧
      (onDisconnect st eventString).2.eventString = eventString) ∧
    (onDisconnect st eventString).2.showActionOrErrorOnDisconnect
      = st.showActionOrErrorOnDisconnect := by
  obtain ⟨ov, flag⟩ := st
  cases ov with
  | none => cases flag <;> simp [onDisconnect, overrideIsSet]
  | some s =>
      by_cases hs : s = ""
      · subst hs
        cases flag <;> simp [onDisconnect, overrideIsSet]
      · cases flag <;> simp [onDisconnect, overrideIsSet, hs]

/-- Witness for C9 (amended) at a state with a non-empty override and a false
flag. -/
theorem C9_onDisconnect_post_state_witness :
    overrideIsSet (onDisconnect
        { disconnectMessageOverride := some "kicked"
          showActionOrErrorOnDisconnect := false } "bye").1.disconnectMessageOverride
      = false ∧
    (onDisconnect
        { disconnectMessageOverride := some "kicked"
          showActionOrErrorOnDisconnect := false } "bye").1.showActionOrErrorOnDisconnect
      = true ∧
    (overrideIsSet (some "kicked") = true →
      (onDisconnect
          { disconnectMessageOverride := some "kicked"
            showActionOrErrorOnDisconnect := false } "bye").1.disconnectMessageOverride
          = some "" ∧
      (onDisconnect
          { disconnectMessageOverride := some "kicked"
            showActionOrErrorOnDisconnect := false } "bye").2.eventString
          = (some "kicked").getD "") ∧
    (overrideIsSet (some "kicked") = false →
      (onDisconnect
          { disconnectMessageOverride := some "kicked"
            showActionOrErrorOnDisconnect := false } "bye").1.disconnectMessageOverride
          = some "kicked" ∧
      (onDisconnect
          { disconnectMessageOverride := some "kicked"
            showActionOrErrorOnDisconnect := false } "bye").2.eventString = "bye") ∧
    (onDisconnect
        { disconnectMessageOverride := some "kicked"
          showActionOrErrorOnDisconnect := false } "bye").2.showActionOrErrorOnDisconnect
      = false :=
  C9_onDisconnect_post_state
    { disconnectMessageOverride := some "kicked"
      showActionOrErrorOnDisconnect := false } "bye"

/-! ### `requestLatencyTest`, `requestShowFps`, `requestIframe` (C10) -/

/-- The request messages the three `request*` methods send over the data
channel (`sendLatencyTest`, `sendShowFps`, `sendIframeRequest`). -/
inductive RequestMessage where
  | latencyTest
  | showFps
  | iframeRequest
deriving DecidableEq, Repr

/-- The state observable by the `request*` methods: the video player's
readiness (`videoPlayer.isVideoReady()`) and the ordered list of request
messages sent so far. -/
structure RequestState where
  videoReady : Bool
  sentMessages : List RequestMessage
deriving DecidableEq, Repr

/-- Embedding of `PixelStreaming.requestLatencyTest` (lines 563-569). -/
def requestLatencyTest (st : RequestState) : Bool × RequestState :=
  if !st.videoReady then (false, st)
  else (true, { st with sentMessages := st.sentMessages ++ [.latencyTest] })

/-- Embedding of `PixelStreaming.requestShowFps` (lines 576-582). -/
def requestShowFps (st : RequestState) : Bool × RequestState :=
  if !st.videoReady then (false, st)
  else (true, { st with sentMessages := st.sentMessages ++ [.showFps] })

/-- Embedding of `PixelStreaming.requestIframe` (lines 589-595). -/
def requestIframe (st : RequestState) : Bool × RequestState :=
  if !st.videoReady then (false, st)
  else (true, { st with sentMessages := st.sentMessages ++ [.iframeRequest] })

/-- C10: each of the three `request*` methods returns false and leaves the
state unchanged (nothing sent) when the video is not ready, and returns true
after sending exactly its own request message when the video is ready. -/
theorem C10_request_methods_gated_on_video_ready (st : RequestState) :
    (st.videoReady = false →
      requestLatencyTest st = (false, st) ∧
      requestShowFps st = (false, st) ∧
      requestIframe st = (false, st)) ∧
    (st.videoReady = true →
      requestLatencyTest st
          = (true, { st with sentMessages := st.sentMessages ++ [.latencyTest] }) ∧
      requestShowFps st
          = (true, { st with sentMessages := st.sentMessages ++ [.showFps] }) ∧
      requestIframe st
          = (true, { st with sentMessages := st.sentMessages ++ [.iframeRequest] })) := by
  constructor
  · intro h
    simp [requestLatencyTest, requestShowFps, requestIframe, h]
  · intro h
    simp [requestLatencyTest, requestShowFps, requestIframe, h]

/-- Witness for C10 at a not-ready state with an empty send log. -/
theorem C10_request_methods_gated_on_video_ready_witness :
    ((false : Bool) = false →
      requestLatencyTest { videoReady := false, sentMessages := [] }
          = (false, { videoReady := false, sentMessages := [] }) ∧
      requestShowFps { videoReady := false, sentMessages := [] }
          = (false, { videoReady := false, sentMessages := [] }) ∧
      requestIframe { videoReady := false, sentMessages := [] }
          = (false, { videoReady := false, sentMessages := [] })) ∧
    ((false : Bool) = true →
      requestLatencyTest { videoReady := false, sentMessages := [] }
          = (true, { videoReady := false, sentMessages := [.latencyTest] }) ∧
      requestShowFps { videoReady := false, sentMessages := [] }
          = (true, { videoReady := false, sentMessages := [.showFps] }) ∧
      requestIframe { videoReady := false, sentMessages := [] }
          = (true, { videoReady := false, sentMessages := [.iframeRequest] })) :=
  C10_request_methods_gated_on_video_ready { videoReady := false, sentMessages := [] }

/-! ### Quality-control ownership (C7) -/

/-- The state observable by the `IsQualityController` machinery: the boolean
config flag, the controller's current ownership view
(`webRtcController.isQualityController`), and a count of
`sendRequestQualityControlOwnership` messages sent. -/
structure QCState where
  settingIsQC : Bool
  isQualityController : Bool
  requestsSent : Nat
deriving DecidableEq, Repr

/-- Embedding of the `Flags.IsQualityController` change listener registered in
`PixelStreaming.configureSettings` (lines 122-134): when the setting has been
set to true and the controller is not currently quality controller, send the
ownership request. -/
def onQCSettingChanged (st : QCState) (wantsQualityController : Bool) : QCState :=
  if wantsQualityController && !st.isQualityController then
    { st with requestsSent := st.requestsSent + 1 }
  else st

/-- Modelled from the spec: `Config.setFlagEnabled` and its change-notification
capability are outside the provided sources; per the specification the library
notifies listeners whenever the configuration is changed, so the registered
listener fires exactly when the stored flag value actually changes. -/
def setFlagIsQualityController (st : QCState) (v : Bool) : QCState :=
  if v == st.settingIsQC then st
  else onQCSettingChanged { st with settingIsQC := v } v

/-- Embedding of `PixelStreaming._onQualityControlOwnership` (lines 551-556):
stores the server-granted ownership value in the `IsQualityController` flag.
Modelled from the spec: the controller's own ownership view is updated to the
grant by the session controller (outside the provided sources) before this
handler runs. -/
def onQualityControlOwnership (st : QCState) (hasQualityOwnership : Bool) : QCState :=
  setFlagIsQualityController
    { st with isQualityController := hasQualityOwnership } hasQualityOwnership

/-- C7: a transition of the `IsQualityController` setting to true while the
controller is not quality controller sends exactly one ownership request; a
transition to true while already owner, or any transition to false, sends
nothing; and an inbound ownership message always leaves the setting equal to
the server-granted value. -/
theorem C7_quality_controller_requests (st : QCState) (b : Bool) :
    (st.settingIsQC = false → st.isQualityController = false →
      (setFlagIsQualityController st true).requestsSent = st.requestsSent + 1) ∧
    (st.settingIsQC = false → st.isQualityController = true →
      (setFlagIsQualityController st true).requestsSent = st.requestsSent) ∧
    (st.settingIsQC = true →
      (setFlagIsQualityController st false).requestsSent = st.requestsSent) ∧
    (onQualityControlOwnership st b).settingIsQC = b := by
  obtain ⟨sq, qc, n⟩ := st
  refine ⟨?_, ?_, ?_, ?_⟩
  · intro h1 h2
    subst h1; subst h2
    simp [setFlagIsQualityController, onQCSettingChanged]
  · intro h1 h2
    subst h1; subst h2
    simp [setFlagIsQualityController, onQCSettingChanged]
  · intro h1
    subst h1
    simp [setFlagIsQualityController, onQCSettingChanged]
  · cases b <;> cases sq <;> cases qc <;>
      simp [onQualityControlOwnership, setFlagIsQualityController, onQCSettingChanged]

/-- Witness for C7 at a state that is not owner with the flag off. -/
theorem C7_quality_controller_requests_witness :
    (((false : Bool) = false → (false : Bool) = false →
      (setFlagIsQualityController
        { settingIsQC := false, isQualityController := false, requestsSent := 0 }
        true).requestsSent = 0 + 1) ∧
     ((false : Bool) = false → (false : Bool) = true →
      (setFlagIsQualityController
        { settingIsQC := false, isQualityController := false, requestsSent := 0 }
        true).requestsSent = 0) ∧
     ((false : Bool) = true →
      (setFlagIsQualityController
        { settingIsQC := false, isQualityController := false, requestsSent := 0 }
        false).requestsSent = 0) ∧
     (onQualityControlOwnership
        { settingIsQC := false, isQualityController := false, requestsSent := 0 }
        true).settingIsQC = true) :=
  C7_quality_controller_requests
    { settingIsQC := false, isQualityController := false, requestsSent := 0 } true

/-! ### `reconnect` (C2) -/

/-- The externally visible actions of a reconnect: closing the current
session, waiting a delay of the given number of milliseconds, emitting the
auto-connect event, and opening the rendezvous (signalling) channel. -/
inductive ReconnectAction where
  | closeSession
  | delayMs (ms : Nat)
  | emitAutoConnect
  | openChannel
deriving DecidableEq, Repr

/-- The reconnect-attempt state of the controller: whether the session had
ever reached the `Connected` state (the "was previously connected" flag). -/
structure ReconnectState where
  everConnected : Bool
deriving DecidableEq, Repr

/-- Modelled from the spec:
`WebRtcPlayerController.restartStreamAutomatically`, called by
`PixelStreaming.reconnect` (lines 352-354), is outside the provided sources.
Per the specification, a reconnect closes the existing session and, if it had
ever reached `Connected`, waits the fixed 3000 ms delay before emitting the
auto-connect event and reopening the rendezvous channel; otherwise it reopens
immediately without closing anything. -/
def restartStreamAutomatically (st : ReconnectState) : List ReconnectAction :=
  if st.everConnected then
    [.closeSession, .delayMs 3000, .emitAutoConnect, .openChannel]
  else
    [.openChannel]

/-- `PixelStreaming.reconnect` (lines 352-354) delegates to
`restartStreamAutomatically`. -/
def reconnect (st : ReconnectState) : List ReconnectAction :=
  restartStreamAutomatically st

/-- C2: reconnecting a controller that never reached `Connected` opens the
rendezvous channel immediately without closing anything; reconnecting one that
had reached `Connected` closes the session first and only opens the new
channel after the fixed 3000 ms delay, and emits the auto-connect event. -/
theorem C2_reconnect_behaviour (st : ReconnectState) :
    (st.everConnected = false →
      reconnect st = [.openChannel] ∧
      ReconnectAction.closeSession ∉ reconnect st) ∧
    (st.everConnected = true →
      reconnect st
        = [.closeSession, .delayMs 3000, .emitAutoConnect, .openChannel] ∧
      ReconnectAction.emitAutoConnect ∈ reconnect st ∧
      ∀ i j k : Fin (reconnect st).length,
        (reconnect st).get i = .closeSession →
        (reconnect st).get j = .delayMs 3000 →
        (reconnect st).get k = .openChannel → i < j ∧ j < k) := by
  obtain ⟨ec⟩ := st
  constructor
  · intro h; subst h
    simp [reconnect, restartStreamAutomatically]
  · intro h; subst h
    exact ⟨rfl, by decide, by decide⟩

/-- Witness for C2 applied at the never-connected controller. -/
theorem C2_reconnect_behaviour_witness :
    ((false : Bool) = false →
      reconnect { everConnected := false } = [.openChannel] ∧
      ReconnectAction.closeSession ∉ reconnect { everConnected := false }) ∧
    ((false : Bool) = true →
      reconnect { everConnected := false }
        = [.closeSession, .delayMs 3000, .emitAutoConnect, .openChannel] ∧
      ReconnectAction.emitAutoConnect ∈ reconnect { everConnected := false } ∧
      ∀ i j k : Fin (reconnect { everConnected := false }).length,
        (reconnect { everConnected := false }).get i = .closeSession →
        (reconnect { everConnected := false }).get j = .delayMs 3000 →
        (reconnect { everConnected := false }).get k = .openChannel →
          i < j ∧ j < k) :=
  C2_reconnect_behaviour { everConnected := false }

/-! ### Streamer discovery and auto-selection (C3) -/

/-- What processing one `StreamerList` message produces: the `Subscribe`
message sent (if any) and the emitted `streamerListMessage` discovery event,
which carries the full received identifier list and the auto-selected id (or
none). -/
structure StreamerListOut where
  subscribeSent : Option String
  eventIds : List String
  eventAutoSelected : Option String
deriving DecidableEq, Repr

/-- Modelled from the spec: the `StreamerList` handler of the session
controller is outside the provided sources.  Per the specification, the
received list replaces the directory wholesale; when it contains exactly one
identifier that identifier is auto-selected and a `Subscribe` message is sent
immediately, otherwise no automatic selection occurs; the discovery event
always carries the full directory and the auto-selected id or none. -/
def onStreamerList (ids : List String) : StreamerListOut :=
  match ids with
  | [id] =>
      { subscribeSent := some id, eventIds := ids, eventAutoSelected := some id }
  | _ => { subscribeSent := none, eventIds := ids, eventAutoSelected := none }

/-- Processing a sequence of `StreamerList` messages: each message is handled
independently (the directory is replaced wholesale each time), so the outputs
of a sequence are the per-message outputs in order. -/
def processStreamerLists (idss : List (List String)) : List StreamerListOut :=
  idss.map onStreamerList

/-- C3: for every sequence of `StreamerList` messages, the output for the most
recent message auto-selects (and sends a `Subscribe` for) a streamer if and
only if that list contains exactly one identifier; the emitted discovery event
always carries the full received list, with the auto-selected id when one was
chosen and none otherwise, and a sent `Subscribe` names the sole identifier. -/
theorem C3_streamer_list_auto_select (idss : List (List String)) (ids : List String) :
    (processStreamerLists (idss ++ [ids])).getLast? = some (onStreamerList ids) ∧
    ((onStreamerList ids).subscribeSent ≠ none ↔ ids.length = 1) ∧
    (onStreamerList ids).eventIds = ids ∧
    (onStreamerList ids).eventAutoSelected = (onStreamerList ids).subscribeSent ∧
    (∀ s, (onStreamerList ids).subscribeSent = some s → ids = [s]) := by
  refine ⟨?_, ?_, ?_, ?_, ?_⟩
  · simp [processStreamerLists]
  · rcases ids with _ | ⟨a, _ | ⟨b, t⟩⟩ <;> simp [onStreamerList]
  · rcases ids with _ | ⟨a, _ | ⟨b, t⟩⟩ <;> simp [onStreamerList]
  · rcases ids with _ | ⟨a, _ | ⟨b, t⟩⟩ <;> simp [onStreamerList]
  · intro s h
    rcases ids with _ | ⟨a, _ | ⟨b, t⟩⟩ <;> simp_all [onStreamerList]

/-- Witness for C3 at the two-message sequence ending in a singleton list. -/
theorem C3_streamer_list_auto_select_witness :
    (processStreamerLists ([["a", "b"]] ++ [["solo"]])).getLast?
        = some (onStreamerList ["solo"]) ∧
    ((onStreamerList ["solo"]).subscribeSent ≠ none ↔ (["solo"] : List String).length = 1) ∧
    (onStreamerList ["solo"]).eventIds = ["solo"] ∧
    (onStreamerList ["solo"]).eventAutoSelected = (onStreamerList ["solo"]).subscribeSent ∧
    (∀ s, (onStreamerList ["solo"]).subscribeSent = some s → ["solo"] = [s]) :=
  C3_streamer_list_auto_select [["a", "b"]] ["solo"]

/-! ### Offer handling (C6) -/

/-- The inbound signalling messages relevant to negotiation. -/
inductive SigMessage where
  | configMsg
  | streamerListMsg (ids : List String)
  | offerMsg (sdp : String)
  | iceCandidateMsg (candidate : String)
deriving DecidableEq, Repr

/-- The peer-session calls and outward events produced while processing
signalling messages. -/
inductive PeerAction where
  | constructPeerSession
  | streamerListEvent (ids : List String)
  | subscribeAction (id : String)
  | setRemoteDescription (sdp : String)
  | emitWebRtcSdp
  | applyIceCandidate (candidate : String)
deriving DecidableEq, Repr

/-- Modelled from the spec: the signalling message dispatch of the session
controller is outside the provided sources.  Per the specification, a `Config`
message constructs the peer session, a `StreamerList` message emits the
discovery event (auto-subscribing on a singleton list), an `Offer` message
sets the remote description on the peer session with exactly the carried
description and then — via `PixelStreaming._onWebRtcSdp` (lines 394-396 of the
source) — emits the `webRtcSdp` event, and an `IceCandidate` message applies
the candidate. -/
def handleSignallingMessage : SigMessage → List PeerAction
  | .configMsg => [.constructPeerSession]
  | .streamerListMsg ids =>
      .streamerListEvent ids ::
        (match ids with
         | [id] => [.subscribeAction id]
         | _ => [])
  | .offerMsg sdp => [.setRemoteDescription sdp, .emitWebRtcSdp]
  | .iceCandidateMsg c => [.applyIceCandidate c]

/-- Processing a sequence of signalling messages produces the concatenation of
the per-message actions, in arrival order. -/
def processMessages (msgs : List SigMessage) : List PeerAction :=
  msgs.flatMap handleSignallingMessage

/-- Each processed message contributes remote-description-set calls for `sdp`
exactly when it is the Offer carrying `sdp`, and then exactly one. -/
theorem count_setRemoteDescription_handle (m : SigMessage) (sdp : String) :
    (handleSignallingMessage m).count (.setRemoteDescription sdp)
      = if m = .offerMsg sdp then 1 else 0 := by
  cases m with
  | configMsg => simp [handleSignallingMessage]
  | streamerListMsg ids =>
      rcases ids with _ | ⟨a, _ | ⟨b, t⟩⟩ <;>
        simp [handleSignallingMessage, List.count_cons]
  | offerMsg s =>
      by_cases h : s = sdp
      · subst h; simp [handleSignallingMessage, List.count_cons]
      · simp [handleSignallingMessage, List.count_cons, h, Ne.symm h]
  | iceCandidateMsg c => simp [handleSignallingMessage]

/-- An sdp-exchanged event is produced by a processed message exactly when
that message is an Offer. -/
theorem emitWebRtcSdp_handle (m : SigMessage) :
    PeerAction.emitWebRtcSdp ∈ handleSignallingMessage m ↔ ∃ s, m = .offerMsg s := by
  cases m with
  | configMsg => simp [handleSignallingMessage]
  | streamerListMsg ids =>
      rcases ids with _ | ⟨a, _ | ⟨b, t⟩⟩ <;> simp [handleSignallingMessage]
  | offerMsg s => simp [handleSignallingMessage]
  | iceCandidateMsg c => simp [handleSignallingMessage]

/-- C6: over any sequence of signalling messages, the peer session receives
exactly one remote-description-set call carrying `sdp` per Offer message
carrying `sdp` (so one Offer yields exactly one such call, with the sdp field
equal to the received description); each processed Offer also emits the
`webRtcSdp` event; and no `webRtcSdp` event appears among the actions of a
message sequence containing no Offer, so the event is never emitted before an
Offer is processed. -/
theorem C6_offer_remote_description_and_sdp_event
    (msgs : List SigMessage) (sdp : String) :
    (processMessages msgs).count (.setRemoteDescription sdp)
        = msgs.count (.offerMsg sdp) ∧
    (processMessages [.offerMsg sdp]).count (.setRemoteDescription sdp) = 1 ∧
    PeerAction.emitWebRtcSdp ∈ processMessages [.offerMsg sdp] ∧
    ((∀ s, SigMessage.offerMsg s ∉ msgs) →
      PeerAction.emitWebRtcSdp ∉ processMessages msgs) := by
  refine ⟨?_, ?_, ?_, ?_⟩
  · induction msgs with
    | nil => simp [processMessages]
    | cons m t ih =>
        simp only [processMessages, List.flatMap_cons, List.count_append,
          List.count_cons] at *
        rw [count_setRemoteDescription_handle]
        by_cases h : m = SigMessage.offerMsg sdp
        · simp [h, ih]
          omega
        · simp [h, ih]
  · simp [processMessages, handleSignallingMessage, List.count_cons]
  · simp [processMessages, handleSignallingMessage]
  · intro hnone hmem
    induction msgs with
    | nil => simp [processMessages] at hmem
    | cons m t ih =>
        simp only [processMessages, List.flatMap_cons, List.mem_append] at hmem
        rcases hmem with hm | ht
        · obtain ⟨s, rfl⟩ := (emitWebRtcSdp_handle m).mp hm
          exact hnone s (by simp)
        · exact ih (fun s hs => hnone s (List.mem_cons_of_mem m hs)) ht

/-- Witness for C6 at a sequence with one Offer and, for the no-Offer clause,
the Offer-free hypothesis refuted is not needed: instantiate with an Offer-free
message list. -/
theorem C6_offer_remote_description_and_sdp_event_witness :
    (processMessages [.configMsg, .iceCandidateMsg "cand"]).count
        (.setRemoteDescription "sdp0") = [SigMessage.configMsg,
          SigMessage.iceCandidateMsg "cand"].count (.offerMsg "sdp0") ∧
    (processMessages [.offerMsg "sdp0"]).count (.setRemoteDescription "sdp0") = 1 ∧
    PeerAction.emitWebRtcSdp ∈ processMessages [.offerMsg "sdp0"] ∧
    ((∀ s, SigMessage.offerMsg s ∉ [SigMessage.configMsg,
        SigMessage.iceCandidateMsg "cand"]) →
      PeerAction.emitWebRtcSdp ∉ processMessages [.configMsg, .iceCandidateMsg "cand"]) :=
  C6_offer_remote_description_and_sdp_event [.configMsg, .iceCandidateMsg "cand"] "sdp0"

/-! ### Console-command gating (C4) -/

/-- The events relevant to console-command gating: an initial-settings message
carrying the `AllowPixelStreamingCommands` permission flag, the side (data)
channel opening and closing, and an `emitConsoleCommand` call. -/
inductive ConsoleEvent where
  | initialSettingsMsg (allow : Bool)
  | channelOpened
  | channelClosed
  | consoleCommand (cmd : String)
deriving DecidableEq, Repr

/-- The state observable by `emitConsoleCommand`: the server-granted
console-command permission and whether the side channel is open. -/
structure ConsoleState where
  allowConsoleCommands : Bool
  channelOpen : Bool
deriving DecidableEq, Repr

/-- Before any message is processed no permission has been granted and the
channel is closed. -/
def initialConsoleState : ConsoleState :=
  { allowConsoleCommands := false, channelOpen := false }

/-- Modelled from the spec: `emitConsoleCommand` and the storage of the
permission flag are outside the provided sources (`_onInitialSettings` in the
source only logs the flag).  Per the specification, the permission is a
server-granted flag carried by the initial-settings message and toggled only
by the server, and a console command is written to the side channel only while
the channel is open and the permission is granted — otherwise the send is
silently suppressed.  The second component is the write performed, if any. -/
def consoleStep (st : ConsoleState) : ConsoleEvent → ConsoleState × Option String
  | .initialSettingsMsg allow => ({ st with allowConsoleCommands := allow }, none)
  | .channelOpened => ({ st with channelOpen := true }, none)
  | .channelClosed => ({ st with channelOpen := false }, none)
  | .consoleCommand cmd =>
      (st, if st.allowConsoleCommands && st.channelOpen then some cmd else none)

/-- The state after processing a list of events from a given state. -/
def consoleRun (st : ConsoleState) : List ConsoleEvent → ConsoleState
  | [] => st
  | e :: es => consoleRun (consoleStep st e).1 es

/-- The state after processing a list of events from the initial state. -/
def consoleStateAfter (evts : List ConsoleEvent) : ConsoleState :=
  consoleRun initialConsoleState evts

/-- The permission flag can only be true if some processed initial-settings
message carried a true flag. -/
theorem consoleAllow_of_run (evts : List ConsoleEvent) (st : ConsoleState)
    (h : (consoleRun st evts).allowConsoleCommands = true) :
    ConsoleEvent.initialSettingsMsg true ∈ evts ∨ st.allowConsoleCommands = true := by
  induction evts generalizing st with
  | nil => exact Or.inr h
  | cons e es ih =>
      rcases ih (consoleStep st e).1 h with hmem | hst
      · exact Or.inl (List.mem_cons_of_mem e hmem)
      · cases e with
        | initialSettingsMsg allow =>
            cases allow with
            | true => exact Or.inl (List.mem_cons_self _ _)
            | false => simp [consoleStep] at hst
        | channelOpened => exact Or.inr hst
        | channelClosed => exact Or.inr hst
        | consoleCommand cmd => exact Or.inr hst

/-- Processing events that contain no initial-settings message leaves the
permission flag unchanged. -/
theorem consoleAllow_run_no_settings (evts : List ConsoleEvent) (st : ConsoleState)
    (h : ∀ b, ConsoleEvent.initialSettingsMsg b ∉ evts) :
    (consoleRun st evts).allowConsoleCommands = st.allowConsoleCommands := by
  induction evts generalizing st with
  | nil => rfl
  | cons e es ih =>
      have hes : ∀ b, ConsoleEvent.initialSettingsMsg b ∉ es :=
        fun b hb => h b (List.mem_cons_of_mem e hb)
      rw [consoleRun, ih _ hes]
      cases e with
      | initialSettingsMsg allow => exact absurd (List.mem_cons_self _ _) (h allow)
      | channelOpened => rfl
      | channelClosed => rfl
      | consoleCommand cmd => rfl

/-- Running a concatenation of event lists runs them in order. -/
theorem consoleRun_append (l1 l2 : List ConsoleEvent) (st : ConsoleState) :
    consoleRun st (l1 ++ l2) = consoleRun (consoleRun st l1) l2 := by
  induction l1 generalizing st with
  | nil => rfl
  | cons e es ih => simp [consoleRun, ih]

/-- C4 counterexample: in the execution
`[channelOpened, initialSettings(true), initialSettings(false)]` followed by an
`emitConsoleCommand` call, an initial-settings message with the permission flag
true has been processed and the channel is open at the call, yet the command is
not written — refuting the claim that after such a message every call made
while the channel is open results in a write. -/
theorem C4_console_command_revocation_counterexample :
    ConsoleEvent.initialSettingsMsg true ∈
      ([.channelOpened, .initialSettingsMsg true, .initialSettingsMsg false] :
        List ConsoleEvent) ∧
    (consoleStateAfter
        [.channelOpened, .initialSettingsMsg true, .initialSettingsMsg false]).channelOpen
      = true ∧
    (consoleStep
        (consoleStateAfter
          [.channelOpened, .initialSettingsMsg true, .initialSettingsMsg false])
        (.consoleCommand "stat fps")).2 = none := by
  decide

/-- C4 (amended): no console command is ever written to the side channel
before an initial-settings message whose permission flag is true has been
processed; and after such a message has been processed, every
`emitConsoleCommand` call made while the channel is open — and while no later
initial-settings message has replaced the permission — results in a write of
that command to the channel. -/
theorem C4_console_command_gating
    (pre pre1 pre2 : List ConsoleEvent) (cmd : String) :
    ((consoleStep (consoleStateAfter pre) (.consoleCommand cmd)).2 ≠ none →
      ConsoleEvent.initialSettingsMsg true ∈ pre) ∧
    ((∀ b, ConsoleEvent.initialSettingsMsg b ∉ pre2) →
      (consoleStateAfter
          (pre1 ++ ConsoleEvent.initialSettingsMsg true :: pre2)).channelOpen = true →
      (consoleStep
          (consoleStateAfter (pre1 ++ ConsoleEvent.initialSettingsMsg true :: pre2))
          (.consoleCommand cmd)).2 = some cmd) := by
  constructor
  · intro hw
    have hallow : (consoleStateAfter pre).allowConsoleCommands = true := by
      by_contra hfalse
      have : (consoleStateAfter pre).allowConsoleCommands = false := by
        cases h : (consoleStateAfter pre).allowConsoleCommands
        · rfl
        · exact absurd h hfalse
      simp [consoleStep, this] at hw
    rcases consoleAllow_of_run pre initialConsoleState hallow with hmem | hinit
    · exact hmem
    · simp [initialConsoleState] at hinit
  · intro hno hopen
    have hallow :
        (consoleStateAfter
          (pre1 ++ ConsoleEvent.initialSettingsMsg true :: pre2)).allowConsoleCommands
          = true := by
      have hsplit :
          consoleStateAfter (pre1 ++ ConsoleEvent.initialSettingsMsg true :: pre2)
            = consoleRun
                (consoleStep (consoleRun initialConsoleState pre1)
                  (.initialSettingsMsg true)).1 pre2 := by
        simp [consoleStateAfter, consoleRun_append, consoleRun]
      rw [hsplit, consoleAllow_run_no_settings _ _ hno]
      rfl
    simp [consoleStep, hallow, hopen]

/-- Witness for C4 (amended), at the empty history for the safety half and at
the history `[channelOpened], initialSettings(true), []` for the gated-send
half. -/
theorem C4_console_command_gating_witness :
    ((consoleStep (consoleStateAfter []) (.consoleCommand "stat gpu")).2 ≠ none →
      ConsoleEvent.initialSettingsMsg true ∈ ([] : List ConsoleEvent)) ∧
    ((∀ b, ConsoleEvent.initialSettingsMsg b ∉ ([] : List ConsoleEvent)) →
      (consoleStateAfter
          ([ConsoleEvent.channelOpened] ++ ConsoleEvent.initialSettingsMsg true :: [])).channelOpen
        = true →
      (consoleStep
          (consoleStateAfter
            ([ConsoleEvent.channelOpened] ++ ConsoleEvent.initialSettingsMsg true :: []))
          (.consoleCommand "stat gpu")).2 = some "stat gpu") :=
  C4_console_command_gating [] [ConsoleEvent.channelOpened] [] "stat gpu"

/-! ### Statistics emission (C5) -/

/-- The events driving the statistics aggregator: entering and leaving the
`Connected` state, and one millisecond of elapsed time. -/
inductive StatsEvent where
  | connectEvt
  | disconnectEvt
  | tickMs
deriving DecidableEq, Repr

/-- The statistics timer state: whether the session is `Connected` and the
milliseconds accumulated towards the next 1000 ms boundary. -/
structure StatsState where
  connected : Bool
  msAccum : Nat
deriving DecidableEq, Repr

/-- Modelled from the spec: the statistics polling timer lives in the session
controller outside the provided sources.  Per the specification, the timer is
started on entering `Connected` and stopped on leaving it, and one statistics
snapshot is emitted per elapsed 1000 ms interval while `Connected`; ticks are
suppressed while not `Connected`.  The second component records whether a
snapshot is emitted at this step. -/
def statsStep (st : StatsState) : StatsEvent → StatsState × Bool
  | .connectEvt => ({ connected := true, msAccum := 0 }, false)
  | .disconnectEvt => ({ connected := false, msAccum := 0 }, false)
  | .tickMs =>
      if st.connected then
        if st.msAccum + 1 == 1000 then ({ st with msAccum := 0 }, true)
        else ({ st with msAccum := st.msAccum + 1 }, false)
      else (st, false)

/-- Processing a list of events: final state and number of snapshots
emitted. -/
def statsRun (st : StatsState) : List StatsEvent → StatsState × Nat
  | [] => (st, 0)
  | e :: es =>
      let p := statsStep st e
      let q := statsRun p.1 es
      (q.1, (if p.2 then 1 else 0) + q.2)

/-- While `Connected` with accumulator below the interval, `n` elapsed
milliseconds emit exactly `(a + n) / 1000` snapshots and leave the accumulator
at `(a + n) % 1000`. -/
theorem statsRun_ticks (n : Nat) :
    ∀ a : Nat, a < 1000 →
      statsRun { connected := true, msAccum := a } (List.replicate n .tickMs)
        = ({ connected := true, msAccum := (a + n) % 1000 }, (a + n) / 1000) := by
  induction n with
  | zero =>
      intro a ha
      simp [statsRun, Nat.mod_eq_of_lt ha, Nat.div_eq_of_lt ha]
  | succ n ih =>
      intro a ha
      rw [List.replicate_succ, statsRun]
      by_cases h : a + 1 = 1000
      · have hstep :
            statsStep { connected := true, msAccum := a } .tickMs
              = ({ connected := true, msAccum := 0 }, true) := by
          simp [statsStep, h]
        rw [hstep, ih 0 (by omega)]
        have e1 : (a + (n + 1)) % 1000 = n % 1000 := by omega
        have e2 : (a + (n + 1)) / 1000 = 1 + n / 1000 := by omega
        simp [e1, e2]
  -- otherwise the accumulator advances without an emission
      · have hbeq : (a + 1 == 1000) = false := by
          simp only [beq_eq_false_iff_ne, ne_eq]
          omega
        have hstep :
            statsStep { connected := true, msAccum := a } .tickMs
              = ({ connected := true, msAccum := a + 1 }, false) := by
          simp [statsStep, hbeq]
        rw [hstep, ih (a + 1) (by omega)]
        have e1 : (a + (n + 1)) % 1000 = (a + 1 + n) % 1000 := by omega
        have e2 : (a + (n + 1)) / 1000 = (a + 1 + n) / 1000 := by omega
        simp [e1, e2]

/-- From a non-`Connected` state, a trace containing no connect event emits no
snapshot and never becomes `Connected`. -/
theorem statsRun_not_connected (evts : List StatsEvent) :
    ∀ st : StatsState, st.connected = false → StatsEvent.connectEvt ∉ evts →
      (statsRun st evts).2 = 0 ∧ (statsRun st evts).1.connected = false := by
  induction evts with
  | nil => intro st h _; exact ⟨rfl, h⟩
  | cons e es ih =>
      intro st h hmem
      have hes : StatsEvent.connectEvt ∉ es :=
        fun hx => hmem (List.mem_cons_of_mem e hx)
      cases e with
      | connectEvt => exact absurd (List.mem_cons_self _ _) hmem
      | disconnectEvt =>
          have := ih { connected := false, msAccum := 0 } rfl hes
          simp [statsRun, statsStep, this.1, this.2]
      | tickMs =>
          have hstep : statsStep st .tickMs = (st, false) := by
            simp [statsStep, h]
          have := ih st h hes
          simp [statsRun, hstep, this.1, this.2]

/-- C5: starting from entry into `Connected` (accumulator reset), exactly one
statistics snapshot is emitted per elapsed 1000 ms interval (`n` elapsed
milliseconds yield `n / 1000` snapshots); a step emits only while `Connected`;
a disconnect always yields the stopped (non-`Connected`, reset) state; and
from a non-`Connected` state no snapshot is emitted by any trace that contains
no new connect event — emission stops at disconnect and does not resume
without a new connection. -/
theorem C5_stats_snapshot_emission (n : Nat) (evts : List StatsEvent) :
    (statsRun { connected := true, msAccum := 0 } (List.replicate n .tickMs)).2
        = n / 1000 ∧
    (∀ st : StatsState, ∀ e : StatsEvent, (statsStep st e).2 = true →
      st.connected = true) ∧
    (∀ st : StatsState,
      (statsStep st .disconnectEvt).1 = { connected := false, msAccum := 0 }) ∧
    (StatsEvent.connectEvt ∉ evts →
      (statsRun { connected := false, msAccum := 0 } evts).2 = 0) := by
  refine ⟨?_, ?_, ?_, ?_⟩
  · rw [statsRun_ticks n 0 (by omega)]
    simp
  · intro st e hemit
    cases e with
    | connectEvt => simp [statsStep] at hemit
    | disconnectEvt => simp [statsStep] at hemit
    | tickMs =>
        by_cases h : st.connected = true
        · exact h
        · have hfalse : st.connected = false := by
            cases hc : st.connected
            · rfl
            · exact absurd hc h
          simp [statsStep, hfalse] at hemit
  · intro st; rfl
  · intro hmem
    exact (statsRun_not_connected evts { connected := false, msAccum := 0 } rfl hmem).1

/-- Witness for C5 at 2500 elapsed milliseconds and the post-disconnect trace
`[tickMs, tickMs]`. -/
theorem C5_stats_snapshot_emission_witness :
    (statsRun { connected := true, msAccum := 0 }
        (List.replicate 2500 .tickMs)).2 = 2500 / 1000 ∧
    (∀ st : StatsState, ∀ e : StatsEvent, (statsStep st e).2 = true →
      st.connected = true) ∧
    (∀ st : StatsState,
      (statsStep st .disconnectEvt).1 = { connected := false, msAccum := 0 }) ∧
    (StatsEvent.connectEvt ∉ ([.tickMs, .tickMs] : List StatsEvent) →
      (statsRun { connected := false, msAccum := 0 } [.tickMs, .tickMs]).2 = 0) :=
  C5_stats_snapshot_emission 2500 [.tickMs, .tickMs]

end PixelStreamingSpec
